import Mathlib

/-!
# Verification of the external/blocking-task bridge of Ask-Ocr

Shallow embedding of the task-bridge subsystem of the Ask-Ocr desktop
application, together with proofs of the behavioural properties stated in
its specification.  Each definition below is translated from the Rust
source file named in its doc comment; machine floating-point values
(`f32`/`f64`) are modelled by exact rational arithmetic, serde JSON
parsing by an explicit parse oracle passed as a function argument, and
the operating system (path probing, process spawning, clipboard polling)
by explicit environment records, so that every operation is a pure,
executable Lean function.
-/

deriving instance DecidableEq for Except

namespace AskOcr

/-! ## Streaming task runner (src/Code/src-tauri/src/ollama/commands.rs)

`ollama_pull_model` posts a pull request and consumes the response as a
stream of byte chunks; each chunk is split into lines, each non-blank
line is parsed as a `PullResponse`, and each successfully parsed record
is either terminal (its `error` field is set, in which case the whole
command returns `Err(error)`) or forwarded to the UI sink as a
`DownloadProgress` event. -/

/-- `PullResponse` (commands.rs lines 35–42): one JSON record of the
Ollama pull stream.  `total`/`completed` are `u64`, modelled as `Nat`. -/
structure PullResponse where
  status : String
  digest : Option String
  total : Option Nat
  completed : Option Nat
  error : Option String
  deriving DecidableEq, Repr

/-- `DownloadProgress` (commands.rs lines 44–51): the event payload
emitted to the frontend.  `progress` is an `f64` percentage in the
source, modelled as an exact rational. -/
structure DownloadProgress where
  status : String
  progress : ℚ
  downloaded_bytes : Nat
  total_bytes : Nat
  error : Option String
  deriving DecidableEq, Repr

/-- `line.trim().is_empty()` (commands.rs line 93): a line is skipped
when it consists of whitespace only. -/
def isBlankLine (s : String) : Bool :=
  s.data.all (fun c => c.isWhitespace)

/-- Splitting a character list on `'\n'` (auxiliary to `rustLines`). -/
def splitNlAux : List Char → List Char → List (List Char)
  | [], acc => [acc.reverse]
  | c :: cs, acc =>
    if c = '\n' then acc.reverse :: splitNlAux cs []
    else splitNlAux cs (c :: acc)

/-- One trailing `'\r'` is stripped from a segment (Rust `str::lines`). -/
def stripCR (l : List Char) : String :=
  match l.getLast? with
  | some ch => if ch = '\r' then String.mk l.dropLast else String.mk l
  | none => String.mk l

/-- Rust `str::lines`: split on `'\n'`, drop the final empty segment
produced by a trailing newline, and strip one trailing `'\r'` from each
line. -/
def rustLines (s : String) : List String :=
  let parts := splitNlAux s.data []
  let parts := match parts.getLast? with
    | some [] => parts.dropLast
    | _ => parts
  parts.map stripCR

/-- Construction of the forwarded event from a parsed record
(commands.rs lines 100–118): progress is `completed/total * 100` when
both fields are present and `total > 0`, and `0` otherwise; the `error`
field of the event is always `None`. -/
def downloadProgressOf (r : PullResponse) : DownloadProgress :=
  match r.completed, r.total with
  | some c, some t =>
    if 0 < t then
      { status := r.status, progress := (c : ℚ) / (t : ℚ) * 100
        downloaded_bytes := c, total_bytes := t, error := none }
    else
      { status := r.status, progress := 0
        downloaded_bytes := 0, total_bytes := 0, error := none }
  | _, _ =>
      { status := r.status, progress := 0
        downloaded_bytes := 0, total_bytes := 0, error := none }

/-- The per-line loop of `ollama_pull_model` (commands.rs lines 92–132)
over the lines of one chunk: blank lines are skipped, unparsable lines
are skipped, a record with an `error` field makes the whole command
return `Err(error)` at once (no further line of the chunk is examined),
and every other record is forwarded to the sink.  `parse` is the serde
oracle for `serde_json::from_str::<PullResponse>`; the returned list is
the sequence of events emitted to the `window` sink (event emission
itself is modelled as infallible), and the `Except` component is the
command's early return, `.ok ()` meaning the lines were consumed to the
end. -/
def processLines (parse : String → Option PullResponse) :
    List String → List DownloadProgress × Except String Unit
  | [] => ([], Except.ok ())
  | line :: rest =>
    if isBlankLine line then processLines parse rest
    else
      match parse line with
      | none => processLines parse rest
      | some r =>
        match r.error with
        | some e => ([], Except.error e)
        | none =>
          let p := processLines parse rest
          (downloadProgressOf r :: p.1, p.2)

/-- `ollama_pull_model` (commands.rs lines 73–136) over the sequence of
stream items: each item is either a transport error (mapped to
`Err("Stream error: " ++ e)`) or a chunk of bytes whose lines are
processed by `processLines`; a terminal error inside a chunk stops the
consumption of the remaining items, and exhaustion of the stream yields
`Ok(())`.  Returns the events forwarded to the sink and the command's
result. -/
def ollama_pull_model (parse : String → Option PullResponse) :
    List (Except String String) → List DownloadProgress × Except String Unit
  | [] => ([], Except.ok ())
  | (Except.error e) :: _ => ([], Except.error ("Stream error: " ++ e))
  | (Except.ok chunk) :: rest =>
    let p := processLines parse (rustLines chunk)
    match p.2 with
    | Except.error e => (p.1, Except.error e)
    | Except.ok _ =>
      let q := ollama_pull_model parse rest
      (p.1 ++ q.1, q.2)

lemma processLines_append (parse : String → Option PullResponse)
    (pre rest : List String) (h : (processLines parse pre).2 = Except.ok ()) :
    processLines parse (pre ++ rest) =
      ((processLines parse pre).1 ++ (processLines parse rest).1,
        (processLines parse rest).2) := by
  induction pre with
  | nil => simp [processLines]
  | cons l tl ih =>
    by_cases hb : isBlankLine l
    · simp only [processLines, hb, if_pos, List.cons_append] at h ⊢
      exact ih h
    · simp only [processLines, hb, if_neg, Bool.not_eq_true, List.cons_append] at h ⊢
      cases hp : parse l with
      | none =>
        simp only [hp] at h ⊢
        exact ih h
      | some r =>
        cases he : r.error with
        | some e => simp [hp, he] at h
        | none =>
          simp only [hp, he] at h ⊢
          rw [List.append_eq, ih h]
          simp

lemma ollama_pull_model_append (parse : String → Option PullResponse)
    (cs₁ cs₂ : List (Except String String))
    (h : (ollama_pull_model parse cs₁).2 = Except.ok ()) :
    ollama_pull_model parse (cs₁ ++ cs₂) =
      ((ollama_pull_model parse cs₁).1 ++ (ollama_pull_model parse cs₂).1,
        (ollama_pull_model parse cs₂).2) := by
  induction cs₁ with
  | nil => simp [ollama_pull_model]
  | cons c tl ih =>
    cases c with
    | error e => simp [ollama_pull_model] at h
    | ok chunk =>
      simp only [ollama_pull_model, List.cons_append] at h ⊢
      cases hp : (processLines parse (rustLines chunk)).2 with
      | error e => simp [hp] at h
      | ok u =>
        simp only [hp] at h ⊢
        rw [List.append_eq, ih h, List.append_assoc]

/-- The event construction always clears the `error` field
(commands.rs line 117 hard-codes `error: None`). -/
lemma downloadProgressOf_error (r : PullResponse) :
    (downloadProgressOf r).error = none := by
  obtain ⟨st, dg, tot, comp, err⟩ := r
  cases comp <;> cases tot <;> simp [downloadProgressOf] <;> split <;> rfl

lemma processLines_events_error_none (parse : String → Option PullResponse)
    (lines : List String) :
    ∀ ev ∈ (processLines parse lines).1, ev.error = none := by
  induction lines with
  | nil => simp [processLines]
  | cons l tl ih =>
    by_cases hb : isBlankLine l
    · simpa [processLines, hb] using ih
    · cases hp : parse l with
      | none => simpa [processLines, hb, hp] using ih
      | some r =>
        cases he : r.error with
        | some e => simp [processLines, hb, hp, he]
        | none =>
          intro ev hev
          simp only [processLines, hb, hp, he, Bool.false_eq_true,
            if_false] at hev
          rcases List.mem_cons.mp hev with h | h
          · rw [h]; exact downloadProgressOf_error r
          · exact ih ev h

/-- A concrete serde oracle used by the closed witnesses below: a
six-line synthetic pull stream in which line `l3` carries an `error`
field. -/
def pullParseFixture : String → Option PullResponse := fun s =>
  if s = "l0" then some ⟨"verifying", none, none, none, none⟩
  else if s = "l1" then some ⟨"downloading", none, some 100, some 10, none⟩
  else if s = "l2" then some ⟨"downloading", none, some 100, some 20, none⟩
  else if s = "l3" then some ⟨"pulling", none, none, none, some "boom"⟩
  else if s = "l4" then some ⟨"downloading", none, some 100, some 40, none⟩
  else if s = "l5" then some ⟨"downloading", none, some 100, some 50, none⟩
  else none

/-- C1: as soon as a successfully parsed record of the pull stream
carries a non-empty `error` field, `ollama_pull_model` returns that
error as the terminal failure, and no later line — neither the lines
buffered after it in the same chunk (`post`) nor later stream items
(`rest`) — is parsed or forwarded: the result does not mention `post` or
`rest`, and the forwarded events are exactly those of the clean prefix. -/
theorem ollama_pull_stops_at_error_record
    (parse : String → Option PullResponse) (cs₁ rest : List (Except String String))
    (chunk : String) (pre post : List String) (l : String) (r : PullResponse) (e : String)
    (hcs : (ollama_pull_model parse cs₁).2 = Except.ok ())
    (hsplit : rustLines chunk = pre ++ l :: post)
    (hpre : (processLines parse pre).2 = Except.ok ())
    (hblank : isBlankLine l = false)
    (hparse : parse l = some r)
    (herr : r.error = some e)
    (hne : e ≠ "") :
    ollama_pull_model parse (cs₁ ++ Except.ok chunk :: rest) =
      ((ollama_pull_model parse cs₁).1 ++ (processLines parse pre).1,
        Except.error e) := by
  have hl : processLines parse (pre ++ l :: post) =
      ((processLines parse pre).1, Except.error e) := by
    rw [processLines_append parse pre (l :: post) hpre]
    simp [processLines, hblank, hparse, herr]
  rw [ollama_pull_model_append parse cs₁ (Except.ok chunk :: rest) hcs]
  simp [ollama_pull_model, hsplit, hl]

/-- Witness for C1 at the synthetic five-line stream of the
specification: lines 1–2 are forwarded as progress, line 3 terminates
the command with `Err "boom"`, lines 4–5 are never processed. -/
theorem ollama_pull_stops_at_error_record_witness :
    ollama_pull_model pullParseFixture [Except.ok "l1\nl2\nl3\nl4\nl5"] =
      ((ollama_pull_model pullParseFixture []).1 ++
        (processLines pullParseFixture ["l1", "l2"]).1, Except.error "boom") :=
  ollama_pull_stops_at_error_record pullParseFixture [] [] "l1\nl2\nl3\nl4\nl5"
    ["l1", "l2"] ["l4", "l5"] "l3" ⟨"pulling", none, none, none, some "boom"⟩
    "boom" rfl (by decide) rfl (by decide) rfl rfl (by decide)

/-- C10: every progress event that `ollama_pull_model` emits to the UI
sink carries `error = None`; a record whose `error` field is set makes
the whole command return `Err` at once and contributes no event at all. -/
theorem ollama_progress_events_error_free (parse : String → Option PullResponse) :
    (∀ chunks ev, ev ∈ (ollama_pull_model parse chunks).1 → ev.error = none) ∧
    (∀ l r e rest, isBlankLine l = false → parse l = some r → r.error = some e →
      processLines parse (l :: rest) = ([], Except.error e)) := by
  constructor
  · intro chunks
    induction chunks with
    | nil => simp [ollama_pull_model]
    | cons c tl ih =>
      cases c with
      | error e => simp [ollama_pull_model]
      | ok chunk =>
        intro ev hev
        simp only [ollama_pull_model] at hev
        cases hp : (processLines parse (rustLines chunk)).2 with
        | error e =>
          simp only [hp] at hev
          exact processLines_events_error_none parse (rustLines chunk) ev hev
        | ok u =>
          simp only [hp] at hev
          rcases List.mem_append.mp hev with h | h
          · exact processLines_events_error_none parse (rustLines chunk) ev h
          · exact ih ev h
  · intro l r e rest hblank hparse herr
    simp [processLines, hblank, hparse, herr]

/-- Witness for C10: on the synthetic stream every emitted event has a
clear `error` field, and the record of line `l3` yields the immediate
terminal `Err "boom"` with no event of its own. -/
theorem ollama_progress_events_error_free_witness :
    (∀ ev ∈ (ollama_pull_model pullParseFixture [Except.ok "l1\nl2"]).1,
      ev.error = none) ∧
    processLines pullParseFixture ["l3", "l4"] = ([], Except.error "boom") :=
  ⟨fun ev hev => (ollama_progress_events_error_free pullParseFixture).1
      [Except.ok "l1\nl2"] ev hev,
    (ollama_progress_events_error_free pullParseFixture).2 "l3"
      ⟨"pulling", none, none, none, some "boom"⟩ "boom" ["l4"]
      (by decide) rfl rfl⟩

/-- C8: a parsed record without an `error` field is forwarded as
`downloadProgressOf r`; its progress equals `completed/total * 100`
(exact rational arithmetic, with the `total = 0` guard of the source
agreeing with the rational convention `c/0 = 0`) when both fields are
present, and `0` when either field is absent. -/
theorem forwarded_progress_formula (parse : String → Option PullResponse)
    (l : String) (r : PullResponse) (rest : List String)
    (hblank : isBlankLine l = false) (hparse : parse l = some r)
    (herr : r.error = none) :
    (processLines parse (l :: rest)).1.head? = some (downloadProgressOf r) ∧
    (∀ c t, r.completed = some c → r.total = some t →
      (downloadProgressOf r).progress = (c : ℚ) / (t : ℚ) * 100) ∧
    ((r.completed = none ∨ r.total = none) →
      (downloadProgressOf r).progress = 0) := by
  refine ⟨?_, ?_, ?_⟩
  · simp [processLines, hblank, hparse, herr]
  · intro c t hc ht
    simp only [downloadProgressOf, hc, ht]
    split
    · rfl
    · rename_i ht0
      have : t = 0 := by omega
      subst this
      simp
  · intro h
    rcases h with hc | ht
    · cases htot : r.total <;> simp [downloadProgressOf, hc, htot]
    · cases hcomp : r.completed <;> simp [downloadProgressOf, ht, hcomp]

/-- Witness for C8: the record of line `l1` is forwarded with progress
`10/100 * 100 = 10`, and the field-free record of line `l0` is forwarded
with progress `0`. -/
theorem forwarded_progress_formula_witness :
    ((processLines pullParseFixture ["l1"]).1.head? =
      some (downloadProgressOf ⟨"downloading", none, some 100, some 10, none⟩)) ∧
    (downloadProgressOf ⟨"downloading", none, some 100, some 10, none⟩).progress =
      (10 : ℚ) / 100 * 100 ∧
    (downloadProgressOf ⟨"verifying", none, none, none, none⟩).progress = 0 :=
  ⟨(forwarded_progress_formula pullParseFixture "l1"
      ⟨"downloading", none, some 100, some 10, none⟩ [] (by decide) rfl rfl).1,
    (forwarded_progress_formula pullParseFixture "l1"
      ⟨"downloading", none, some 100, some 10, none⟩ [] (by decide) rfl rfl).2.1
      10 100 rfl rfl,
    (forwarded_progress_formula pullParseFixture "l0"
      ⟨"verifying", none, none, none, none⟩ [] (by decide) rfl rfl).2.2
      (Or.inl rfl)⟩

/-! ## External process invoker (src/Code/src-tauri/src/audio_ai/mod.rs)

`run_python_audio_command` resolves a Python interpreter and the helper
script from ordered candidate path lists, spawns one synchronous child
process, and maps its exit status and captured output to a result.  The
filesystem and the OS spawn primitive are modelled by an `AudioEnv`
record; the spawn calls actually issued are returned as an explicit
trace, and the exit path taken is recorded as a `RunPath` tag so that
control-flow claims are observable. -/

/-- Captured output of a finished child process (`std::process::Output`):
exit-status success flag, stdout and stderr (lossy UTF-8). -/
structure ProcOutput where
  success : Bool
  stdout : String
  stderr : String
  deriving DecidableEq, Repr

/-- The OS as seen by the invoker: which candidate paths exist, and what
`Command::output()` does for a given program and argument vector.  A
`Except.error` from `spawn` models failure to create the child process
at all (missing interpreter, OS refusal). -/
structure AudioEnv where
  pathExists : String → Bool
  spawn : String → List String → Except String ProcOutput

/-- The venv candidate list of `get_python_executable`
(audio_ai/mod.rs lines 96–104). -/
def venv_paths : List String :=
  ["../.venv/Scripts/python.exe",
   "../../.venv/Scripts/python.exe",
   ".venv/Scripts/python.exe",
   "F:/Ask_Ocr/Code/.venv/Scripts/python.exe",
   "F:/Ask_Ocr/Code/python_backend/.venv/Scripts/python.exe"]

/-- The helper-script candidate list of `get_audio_ai_script_path`
(audio_ai/mod.rs lines 119–126). -/
def script_paths : List String :=
  ["../python_backend/audio_ai_helper.py",
   "../../python_backend/audio_ai_helper.py",
   "python_backend/audio_ai_helper.py",
   "F:/Ask_Ocr/Code/python_backend/audio_ai_helper.py"]

/-- `get_python_executable` (audio_ai/mod.rs lines 94–116): first
existing venv candidate, else the bare command name `python` resolved by
the OS search path. -/
def get_python_executable (env : AudioEnv) : String :=
  match venv_paths.find? env.pathExists with
  | some p => p
  | none => "python"

/-- `get_audio_ai_script_path` (audio_ai/mod.rs lines 118–140): first
existing script candidate, else an immediate error. -/
def get_audio_ai_script_path (env : AudioEnv) : Except String String :=
  match script_paths.find? env.pathExists with
  | some p => Except.ok p
  | none => Except.error "Audio AI helper script not found"

/-- The exit path taken by one `run_python_audio_command` call. -/
inductive RunPath
  | scriptMissing
  | spawnFailed
  | ranOk
  | ranFailed
  deriving DecidableEq, Repr

/-- Outcome of one invoker call: the trace of `Command::output()` calls
issued (program and argument vector), the exit path taken, and the
returned `Result<String, String>`. -/
structure RunResult where
  spawns : List (String × List String)
  path : RunPath
  result : Except String String
  deriving DecidableEq, Repr

/-- `run_python_audio_command` (audio_ai/mod.rs lines 142–168): resolve
the script (propagating its error before any process is created), build
the child command as interpreter + script + args, run it once, and map
the outcome: spawn failure becomes `Err("Failed to execute command: e")`,
exit success returns the raw stdout, exit failure returns
`Err("Command failed: stderr\nstdout")`. -/
def run_python_audio_command (env : AudioEnv) (args : List String) : RunResult :=
  match get_audio_ai_script_path env with
  | Except.error e => ⟨[], RunPath.scriptMissing, Except.error e⟩
  | Except.ok script =>
    let python_exe := get_python_executable env
    match env.spawn python_exe (script :: args) with
    | Except.error e =>
      ⟨[(python_exe, script :: args)], RunPath.spawnFailed,
        Except.error ("Failed to execute command: " ++ e)⟩
    | Except.ok out =>
      if out.success then
        ⟨[(python_exe, script :: args)], RunPath.ranOk, Except.ok out.stdout⟩
      else
        ⟨[(python_exe, script :: args)], RunPath.ranFailed,
          Except.error ("Command failed: " ++ out.stderr ++ "\n" ++ out.stdout)⟩

/-- `ModelStatus` (audio_ai/mod.rs lines 14–19). -/
structure ModelStatus where
  whisper_models : List String
  diarization_installed : Bool
  denoiser_installed : Bool
  deriving DecidableEq, Repr

/-- `DownloadResult` (audio_ai/mod.rs lines 21–26). -/
structure DownloadResult where
  success : Bool
  message : Option String
  error : Option String
  deriving DecidableEq, Repr

/-- `check_ai_models` (audio_ai/mod.rs lines 184–190): run the helper
with action `check-models` and parse its stdout as `ModelStatus`.
`parse` is the serde oracle for `serde_json::from_str::<ModelStatus>`. -/
def check_ai_models (env : AudioEnv)
    (parse : String → Except String ModelStatus) : Except String ModelStatus :=
  match (run_python_audio_command env ["check-models"]).result with
  | Except.error e => Except.error e
  | Except.ok output =>
    match parse output with
    | Except.error e => Except.error ("Failed to parse model status: " ++ e)
    | Except.ok r => Except.ok r

/-- `cancel_model_download` (audio_ai/mod.rs lines 236–240): store
`true` into the shared `CANCEL_DOWNLOAD` flag; the returned value is the
new flag state. -/
def cancel_model_download (_cancel_download : Bool) : Bool := true

/-- Outcome of `download_whisper_model`: the `CANCEL_DOWNLOAD` flag
state it leaves behind, the invoker trace, and the command's result. -/
structure DownloadRun where
  cancel_download : Bool
  spawns : List (String × List String)
  result : Except String DownloadResult
  deriving DecidableEq, Repr

/-- `download_whisper_model` (audio_ai/mod.rs lines 193–205): store
`false` into `CANCEL_DOWNLOAD` (unconditionally — the incoming flag
state is never read), run the helper with action `download-whisper`, and
parse its stdout as `DownloadResult`; a parse failure becomes
`Err("Failed to parse download result: e")` where `e` is the parser's
own error description. -/
def download_whisper_model (env : AudioEnv)
    (parse : String → Except String DownloadResult) (model_name : String)
    (_cancel_download : Bool) : DownloadRun :=
  let flag := false
  let run := run_python_audio_command env ["download-whisper", model_name]
  match run.result with
  | Except.error e => ⟨flag, run.spawns, Except.error e⟩
  | Except.ok output =>
    match parse output with
    | Except.error e =>
      ⟨flag, run.spawns, Except.error ("Failed to parse download result: " ++ e)⟩
    | Except.ok r => ⟨flag, run.spawns, Except.ok r⟩

/-- The invoker issues no spawn call exactly when the helper script is
missing from every candidate path. -/
lemma run_spawns_eq_nil_iff (env : AudioEnv) (args : List String) :
    (run_python_audio_command env args).spawns = [] ↔
      script_paths.find? env.pathExists = none := by
  unfold run_python_audio_command get_audio_ai_script_path
  cases hf : script_paths.find? env.pathExists with
  | none => simp
  | some p =>
    simp only
    cases env.spawn (get_python_executable env) (p :: args) with
    | error e => simp
    | ok out =>
      by_cases h : out.success <;> simp [h]

/-- `download_whisper_model` issues exactly the spawn calls of its
invoker call. -/
lemma download_whisper_model_spawns (env : AudioEnv)
    (parse : String → Except String DownloadResult) (name : String) (flag : Bool) :
    (download_whisper_model env parse name flag).spawns =
      (run_python_audio_command env ["download-whisper", name]).spawns := by
  simp only [download_whisper_model]
  split
  · rfl
  · split <;> rfl

/-- C4: when the helper script resolves, the child process exits with
success status, and its stdout parses as the expected `ModelStatus`
schema, `check_ai_models` returns exactly the parsed document. -/
theorem check_ai_models_roundtrip (env : AudioEnv)
    (parse : String → Except String ModelStatus) (sp s errS : String)
    (m : ModelStatus)
    (hs : get_audio_ai_script_path env = Except.ok sp)
    (hr : env.spawn (get_python_executable env) (sp :: ["check-models"]) =
      Except.ok ⟨true, s, errS⟩)
    (hp : parse s = Except.ok m) :
    check_ai_models env parse = Except.ok m := by
  simp [check_ai_models, run_python_audio_command, hs, hr, hp]

/-- An environment in which only the relative helper-script path exists
and the child process succeeds, printing the fixture document. -/
def audioEnvRoundtrip : AudioEnv :=
  { pathExists := fun p => p == "python_backend/audio_ai_helper.py"
    spawn := fun _ _ => Except.ok ⟨true, "ms-json", ""⟩ }

/-- A serde oracle for `ModelStatus` that accepts only the fixture
document. -/
def parseMsFixture : String → Except String ModelStatus := fun s =>
  if s = "ms-json" then Except.ok ⟨["base", "small"], true, false⟩
  else Except.error "expected value at line 1 column 1"

/-- Witness for C4 at a concrete environment and document. -/
theorem check_ai_models_roundtrip_witness :
    check_ai_models audioEnvRoundtrip parseMsFixture =
      Except.ok ⟨["base", "small"], true, false⟩ :=
  check_ai_models_roundtrip audioEnvRoundtrip parseMsFixture
    "python_backend/audio_ai_helper.py" "ms-json" ""
    ⟨["base", "small"], true, false⟩ rfl rfl rfl

/-- C5: when no helper-script candidate path exists the invoker returns
the immediate error with an empty spawn trace (no child process was ever
created); and a spawn failure takes the distinct `spawnFailed` exit path
with its own error message, never the nonzero-exit (`ranFailed`) result
path. -/
theorem invoker_spawn_failure_short_circuit (env : AudioEnv) (args : List String) :
    ((∀ p ∈ script_paths, env.pathExists p = false) →
      run_python_audio_command env args =
        ⟨[], RunPath.scriptMissing,
          Except.error "Audio AI helper script not found"⟩) ∧
    (∀ sp e, get_audio_ai_script_path env = Except.ok sp →
      env.spawn (get_python_executable env) (sp :: args) = Except.error e →
      (run_python_audio_command env args).path = RunPath.spawnFailed ∧
      (run_python_audio_command env args).result =
        Except.error ("Failed to execute command: " ++ e) ∧
      (run_python_audio_command env args).path ≠ RunPath.ranFailed) := by
  constructor
  · intro h
    have hfind : script_paths.find? env.pathExists = none := by
      rw [List.find?_eq_none]
      intro p hp
      simp [h p hp]
    simp [run_python_audio_command, get_audio_ai_script_path, hfind]
  · intro sp e hs hr
    refine ⟨?_, ?_, ?_⟩ <;> simp [run_python_audio_command, hs, hr]

/-- An environment in which no candidate path exists at all. -/
def audioEnvNoPaths : AudioEnv :=
  { pathExists := fun _ => false
    spawn := fun _ _ => Except.error "program not found" }

/-- An environment in which the script exists but the OS refuses to
spawn the interpreter. -/
def audioEnvNoSpawn : AudioEnv :=
  { pathExists := fun p => p == "python_backend/audio_ai_helper.py"
    spawn := fun _ _ => Except.error "program not found" }

/-- Witness for C5: the missing-script case returns at once with an
empty spawn trace, and the OS-refusal case takes the `spawnFailed` path. -/
theorem invoker_spawn_failure_short_circuit_witness :
    run_python_audio_command audioEnvNoPaths ["check-models"] =
      ⟨[], RunPath.scriptMissing,
        Except.error "Audio AI helper script not found"⟩ ∧
    (run_python_audio_command audioEnvNoSpawn ["check-models"]).path =
      RunPath.spawnFailed ∧
    (run_python_audio_command audioEnvNoSpawn ["check-models"]).result =
      Except.error ("Failed to execute command: " ++ "program not found") ∧
    (run_python_audio_command audioEnvNoSpawn ["check-models"]).path ≠
      RunPath.ranFailed :=
  ⟨(invoker_spawn_failure_short_circuit audioEnvNoPaths ["check-models"]).1
      (fun _ _ => rfl),
    (invoker_spawn_failure_short_circuit audioEnvNoSpawn ["check-models"]).2
      "python_backend/audio_ai_helper.py" "program not found" rfl rfl⟩

/-- A serde oracle for `DownloadResult` that accepts only the fixture
document `dl-json` and reports a serde-style location error otherwise. -/
def parseDlFixture : String → Except String DownloadResult := fun s =>
  if s = "dl-json" then Except.ok ⟨true, some "ok", none⟩
  else Except.error "expected value at line 1 column 1"

/-- An environment in which the helper script exists and the download
helper succeeds with the fixture document. -/
def audioEnvDownload : AudioEnv :=
  { pathExists := fun p => p == "python_backend/audio_ai_helper.py"
    spawn := fun _ _ => Except.ok ⟨true, "dl-json", ""⟩ }

/-- Counterexample to C2: with the `CANCEL_DOWNLOAD` flag already set
(`true`, i.e. after `cancel_model_download` and before any reset),
`download_whisper_model` still starts the helper process — its spawn
trace is non-empty — and consumes its result; it merely overwrites the
flag with `false`.  No checkpoint ever observes the flag, so a pending
cancellation prevents nothing. -/
theorem cancel_does_not_prevent_download :
    cancel_model_download false = true ∧
    (download_whisper_model audioEnvDownload parseDlFixture "base" true).spawns =
      [("python",
        ["python_backend/audio_ai_helper.py", "download-whisper", "base"])] ∧
    (download_whisper_model audioEnvDownload parseDlFixture "base" true).result =
      Except.ok ⟨true, some "ok", none⟩ ∧
    (download_whisper_model audioEnvDownload parseDlFixture "base" true).cancel_download =
      false :=
  ⟨rfl, rfl, rfl, rfl⟩

/-- C2 as amended: the `CANCEL_DOWNLOAD` flag is write-only.
`cancel_model_download` sets it, `download_whisper_model` unconditionally
resets it to `false`, and the download's behaviour — including whether
the helper process is started (it always is, unless the script is
missing) and whether an already running helper is affected (it never
is) — is completely independent of the flag's prior state. -/
theorem cancel_flag_is_write_only (env : AudioEnv)
    (parse : String → Except String DownloadResult) (name : String)
    (flag flag' : Bool) :
    cancel_model_download flag = true ∧
    download_whisper_model env parse name flag =
      download_whisper_model env parse name flag' ∧
    (download_whisper_model env parse name flag).cancel_download = false ∧
    (script_paths.find? env.pathExists = none ∨
      (download_whisper_model env parse name flag).spawns ≠ []) := by
  refine ⟨rfl, rfl, ?_, ?_⟩
  · simp only [download_whisper_model]
    split
    · rfl
    · split <;> rfl
  · cases hf : script_paths.find? env.pathExists with
    | none => exact Or.inl rfl
    | some p =>
      refine Or.inr ?_
      rw [download_whisper_model_spawns]
      intro hnil
      rw [run_spawns_eq_nil_iff] at hnil
      rw [hf] at hnil
      exact Option.noConfusion hnil

/-- An environment in which the helper script exists and the child
process exits successfully but prints unparsable stdout. -/
def audioEnvGarbage : AudioEnv :=
  { pathExists := fun p => p == "python_backend/audio_ai_helper.py"
    spawn := fun _ _ => Except.ok ⟨true, "garbage", ""⟩ }

/-- Counterexample to C6: on a successful exit whose stdout fails to
parse, the caller's error message is the parse-failure indication plus
the *parser's error description*; the raw stdout (`"garbage"`) does not
occur in the message at all, so the message is not "parse-failure
indication plus the raw stdout". -/
theorem download_parse_failure_message_counterexample :
    (download_whisper_model audioEnvGarbage parseDlFixture "base" false).result =
      Except.error
        "Failed to parse download result: expected value at line 1 column 1" ∧
    "Failed to parse download result: expected value at line 1 column 1" ≠
      "Failed to parse download result: " ++ "garbage" ∧
    ¬ ("garbage".data <:+:
      "Failed to parse download result: expected value at line 1 column 1".data) := by
  refine ⟨rfl, by decide, by decide⟩

/-- C6 as amended: when the helper exits successfully but its stdout
fails to parse, the caller receives a failure whose message is the
parse-failure indication concatenated with the parser's own error
description (not the raw stdout). -/
theorem download_parse_failure_message (env : AudioEnv)
    (parse : String → Except String DownloadResult) (name : String) (flag : Bool)
    (sp s errS e : String)
    (hs : get_audio_ai_script_path env = Except.ok sp)
    (hr : env.spawn (get_python_executable env)
      (sp :: ["download-whisper", name]) = Except.ok ⟨true, s, errS⟩)
    (hp : parse s = Except.error e) :
    (download_whisper_model env parse name flag).result =
      Except.error ("Failed to parse download result: " ++ e) := by
  simp [download_whisper_model, run_python_audio_command, hs, hr, hp]

/-- Witness for the amended C6 at a concrete environment. -/
theorem download_parse_failure_message_witness :
    (download_whisper_model audioEnvGarbage parseDlFixture "base" false).result =
      Except.error ("Failed to parse download result: " ++
        "expected value at line 1 column 1") :=
  download_parse_failure_message audioEnvGarbage parseDlFixture "base" false
    "python_backend/audio_ai_helper.py" "garbage" ""
    "expected value at line 1 column 1" rfl rfl rfl

/-! ## Persistent audio worker thread (src/Code/src-tauri/src/player.rs)

`AudioPlayer::new` spawns one thread that owns the rodio output stream
and sink and executes `AudioCommand`s drawn from an mpsc channel, one at
a time, in channel order.  The channel contents are modelled as the list
of commands in submission order (the FIFO contract of
`std::sync::mpsc`), the sink as an explicit state, and each command's
effect as the sequence of sink method calls it performs. -/

/-- `AudioCommand` (player.rs lines 9–16); `f32`/`f64` arguments are
modelled as exact rationals. -/
inductive AudioCommand
  | play (path : String)
  | pause
  | resume
  | stop
  | setVolume (v : ℚ)
  | seek (t : ℚ)
  deriving DecidableEq, Repr

/-- One observable method call on the owned rodio sink. -/
inductive SinkCall
  | stop
  | append (path : String)
  | play
  | pause
  | setVolume (v : ℚ)
  | trySeek (t : ℚ)
  deriving DecidableEq, Repr

/-- State of the owned sink, as far as the worker loop observes it:
whether its queue is empty (`sink.empty()`), whether it is paused, and
its volume. -/
structure SinkState where
  isEmpty : Bool
  paused : Bool
  volume : ℚ
  deriving DecidableEq, Repr

/-- The body of the worker loop for one command (player.rs lines
46–81).  `decodeOk path` models whether `File::open` followed by
`Decoder::new` succeeds for the file; on failure the error is only
logged and the sink is untouched.  `Play` first calls `sink.stop()`
when the queue is non-empty, then appends the new source and starts
playback. -/
def execCommand (decodeOk : String → Bool) :
    AudioCommand → SinkState → SinkState × List SinkCall
  | AudioCommand.play path, s =>
    if decodeOk path then
      if s.isEmpty then
        ({ s with isEmpty := false, paused := false },
          [SinkCall.append path, SinkCall.play])
      else
        ({ s with isEmpty := false, paused := false },
          [SinkCall.stop, SinkCall.append path, SinkCall.play])
    else (s, [])
  | AudioCommand.pause, s => ({ s with paused := true }, [SinkCall.pause])
  | AudioCommand.resume, s => ({ s with paused := false }, [SinkCall.play])
  | AudioCommand.stop, s => ({ s with isEmpty := true }, [SinkCall.stop])
  | AudioCommand.setVolume v, s => ({ s with volume := v }, [SinkCall.setVolume v])
  | AudioCommand.seek t, s => (s, [SinkCall.trySeek t])

/-- The worker loop (player.rs lines 45–82): commands are drawn from the
channel in submission order and executed synchronously, one at a time;
the returned list is the sequence of sink calls observed by the owned
sink. -/
def workerRun (decodeOk : String → Bool) :
    SinkState → List AudioCommand → SinkState × List SinkCall
  | s, [] => (s, [])
  | s, c :: cs =>
    let r := execCommand decodeOk c s
    let w := workerRun decodeOk r.1 cs
    (w.1, r.2 ++ w.2)

/-- The initial sink created by `Sink::try_new`: empty queue, playing
state, volume 1. -/
def initSink : SinkState := ⟨true, false, 1⟩

/-- C3: the worker executes submitted commands strictly in submission
order, one at a time.  Splitting any submission sequence anywhere, the
observed sink-call trace is the trace of the first part followed by the
trace of the second part started in the state the first part left —
commands are never reordered and their sink calls never interleave.  In
particular the specification's sequence `Play(A)`, `SetVolume(1/2)`,
`Pause`, `Stop` produces exactly `append A, play, setVolume 1/2, pause,
stop`. -/
theorem worker_fifo :
    (∀ (decodeOk : String → Bool) (s : SinkState) (cs₁ cs₂ : List AudioCommand),
      workerRun decodeOk s (cs₁ ++ cs₂) =
        ((workerRun decodeOk (workerRun decodeOk s cs₁).1 cs₂).1,
          (workerRun decodeOk s cs₁).2 ++
            (workerRun decodeOk (workerRun decodeOk s cs₁).1 cs₂).2)) ∧
    (workerRun (fun _ => true) initSink
        [AudioCommand.play "A", AudioCommand.setVolume (1 / 2),
          AudioCommand.pause, AudioCommand.stop]).2 =
      [SinkCall.append "A", SinkCall.play, SinkCall.setVolume (1 / 2),
        SinkCall.pause, SinkCall.stop] := by
  constructor
  · intro decodeOk s cs₁ cs₂
    induction cs₁ generalizing s with
    | nil => simp [workerRun]
    | cons c tl ih =>
      simp only [workerRun, List.cons_append]
      rw [List.append_eq, ih (execCommand decodeOk c s).1, List.append_assoc]
  · rfl

/-- State of the `AudioPlayer` handle and its channel: whether the
worker thread has terminated (receiver dropped, so `send` on the channel
fails), whether the sender mutex is poisoned, and the commands enqueued
so far in FIFO order. -/
structure AudioPlayerState where
  closed : Bool
  poisoned : Bool
  queue : List AudioCommand
  deriving DecidableEq, Repr

/-- `AudioPlayer::send` (player.rs lines 90–94): lock the sender mutex
(silently doing nothing if poisoned) and send, discarding the send
result with `let _ =`; a failed send — the worker thread is gone and the
channel closed — drops the command silently.  The function's return type
carries no error component, mirroring the `()` return of the source. -/
def send (st : AudioPlayerState) (c : AudioCommand) : AudioPlayerState :=
  if st.poisoned then st
  else if st.closed then st
  else { st with queue := st.queue ++ [c] }

/-- `play_audio` (player.rs lines 97–100). -/
def play_audio (st : AudioPlayerState) (path : String) : AudioPlayerState :=
  send st (AudioCommand.play path)

/-- `pause_audio` (player.rs lines 102–105). -/
def pause_audio (st : AudioPlayerState) : AudioPlayerState :=
  send st AudioCommand.pause

/-- `resume_audio` (player.rs lines 107–110). -/
def resume_audio (st : AudioPlayerState) : AudioPlayerState :=
  send st AudioCommand.resume

/-- `stop_audio` (player.rs lines 112–115). -/
def stop_audio (st : AudioPlayerState) : AudioPlayerState :=
  send st AudioCommand.stop

/-- `set_volume` (player.rs lines 117–120). -/
def set_volume (st : AudioPlayerState) (volume : ℚ) : AudioPlayerState :=
  send st (AudioCommand.setVolume volume)

/-- `seek_audio` (player.rs lines 122–125). -/
def seek_audio (st : AudioPlayerState) (time : ℚ) : AudioPlayerState :=
  send st (AudioCommand.seek time)

/-- C9: once the worker thread has terminated (channel closed), `send`
still returns normally — its type has no error component — and leaves
the player state unchanged: the command is silently dropped, and every
public playback command is a no-op that surfaces no error to its
caller. -/
theorem send_after_close_is_silent_noop (st : AudioPlayerState)
    (c : AudioCommand) (path : String) (v t : ℚ)
    (h : st.closed = true) :
    send st c = st ∧
    play_audio st path = st ∧
    pause_audio st = st ∧
    resume_audio st = st ∧
    stop_audio st = st ∧
    set_volume st v = st ∧
    seek_audio st t = st := by
  have hsend : ∀ c', send st c' = st := by
    intro c'
    unfold send
    by_cases hp : st.poisoned <;> simp [hp, h]
  exact ⟨hsend c, hsend _, hsend _, hsend _, hsend _, hsend _, hsend _⟩

/-- Witness for C9 at a concrete closed player state. -/
theorem send_after_close_is_silent_noop_witness :
    send ⟨true, false, []⟩ AudioCommand.pause = ⟨true, false, []⟩ ∧
    play_audio ⟨true, false, []⟩ "A" = ⟨true, false, []⟩ :=
  ⟨(send_after_close_is_silent_noop ⟨true, false, []⟩ AudioCommand.pause "A" 1 1
      rfl).1,
    (send_after_close_is_silent_noop ⟨true, false, []⟩ AudioCommand.pause "A" 1 1
      rfl).2.1⟩

/-! ## Polling completion watcher
(src/cleancode/src-tauri/src/screenshot/mod.rs)

`wait_for_clipboard_image` sleeps an initial grace period and then
polls the clipboard through a PowerShell probe every 500 ms for up to
60 s.  Real time is abstracted into a poll budget: `sample n` is the
trimmed stdout of the `n`-th probe (`none` when the PowerShell command
itself failed), and `budget` is the number of polls the 60-second
wall-clock budget allows; the sleeps and the duplicate-file cleanup side
effect are elided. -/

/-- `ScreenshotResult` as produced by `wait_for_clipboard_image`
(screenshot/mod.rs lines 270–285). -/
structure ScreenshotResult where
  success : Bool
  image_data : Option String
  image_path : Option String
  error : Option String
  deriving DecidableEq, Repr

/-- The polling loop (screenshot/mod.rs lines 225–268): probe the
clipboard; a non-empty trimmed stdout is the image and ends the loop,
otherwise sleep and retry until the budget is exhausted. -/
def pollClipboard (sample : Nat → Option String) : Nat → Nat → Option String
  | 0, _ => none
  | fuel + 1, attempt =>
    match sample attempt with
    | some stdout =>
      if stdout.isEmpty then pollClipboard sample fuel (attempt + 1)
      else some stdout
    | none => pollClipboard sample fuel (attempt + 1)

/-- `wait_for_clipboard_image` (screenshot/mod.rs lines 215–286): both
terminal outcomes are built as `Ok(ScreenshotResult { .. })`; the
`Except.error` side of the `Result` return type is never used. -/
def wait_for_clipboard_image (sample : Nat → Option String) (budget : Nat) :
    Except String ScreenshotResult :=
  match pollClipboard sample budget 0 with
  | some stdout =>
    Except.ok
      { success := true
        image_data := some ("data:image/png;base64," ++ stdout)
        image_path := none, error := none }
  | none =>
    Except.ok
      { success := false, image_data := none, image_path := none
        error := some "Timed out waiting for screenshot or cancelled" }

/-- The sampled predicate of the watcher holds at probe `n`: the probe
command succeeded and its trimmed stdout is non-empty. -/
def goodAt (sample : Nat → Option String) (n : Nat) : Prop :=
  ∃ st, sample n = some st ∧ st.isEmpty = false

lemma pollClipboard_none_of_bad (sample : Nat → Option String) :
    ∀ fuel a, (∀ k, k < fuel → ¬ goodAt sample (a + k)) →
      pollClipboard sample fuel a = none := by
  intro fuel
  induction fuel with
  | zero => intro a _; rfl
  | succ n ih =>
    intro a h
    have hnext : ∀ k, k < n → ¬ goodAt sample (a + 1 + k) := by
      intro k hk
      have := h (k + 1) (by omega)
      have harith : a + (k + 1) = a + 1 + k := by omega
      rwa [harith] at this
    have h0 : ¬ goodAt sample a := by
      have := h 0 (Nat.succ_pos n)
      simpa using this
    simp only [pollClipboard]
    cases hs : sample a with
    | none => exact ih (a + 1) hnext
    | some st =>
      have he : st.isEmpty = true := by
        by_contra hne
        exact h0 ⟨st, hs, by simpa using hne⟩
      simp only [he, if_true]
      exact ih (a + 1) hnext

lemma bad_of_pollClipboard_none (sample : Nat → Option String) :
    ∀ fuel a, pollClipboard sample fuel a = none →
      ∀ k, k < fuel → ¬ goodAt sample (a + k) := by
  intro fuel
  induction fuel with
  | zero => intro a _ k hk; omega
  | succ n ih =>
    intro a h k hk
    simp only [pollClipboard] at h
    cases hs : sample a with
    | none =>
      simp only [hs] at h
      cases k with
      | zero =>
        intro hg
        obtain ⟨st, hst, _⟩ := hg
        rw [Nat.add_zero, hs] at hst
        exact Option.noConfusion hst
      | succ m =>
        have := ih (a + 1) h m (by omega)
        have harith : a + (m + 1) = a + 1 + m := by omega
        rwa [harith]
    | some st =>
      simp only [hs] at h
      by_cases he : st.isEmpty
      · simp only [he, if_true] at h
        cases k with
        | zero =>
          intro hg
          obtain ⟨st', hst', hne'⟩ := hg
          rw [Nat.add_zero, hs] at hst'
          cases hst'
          rw [he] at hne'
          exact Bool.noConfusion hne'
        | succ m =>
          have := ih (a + 1) h m (by omega)
          have harith : a + (m + 1) = a + 1 + m := by omega
          rwa [harith]
      · simp only [he, if_false] at h
        exact Option.noConfusion h

/-- C7: the watcher returns both terminal outcomes as a normal `Ok`
value, never as an `Err`: if some probe within the budget sees the
image, the result is success-flagged; if the budget is exhausted without
success, the result is `success: false` with the timeout message.  The
`Err` side of the return type is unreachable. -/
theorem wait_for_clipboard_image_is_total (sample : Nat → Option String)
    (budget : Nat) :
    (∃ r, wait_for_clipboard_image sample budget = Except.ok r ∧
      ((r.success = true ∧ r.error = none) ∨
        (r.success = false ∧
          r.error = some "Timed out waiting for screenshot or cancelled"))) ∧
    ((∃ k, k < budget ∧ goodAt sample k) →
      ∃ r, wait_for_clipboard_image sample budget = Except.ok r ∧
        r.success = true) ∧
    ((∀ k, k < budget → ¬ goodAt sample k) →
      wait_for_clipboard_image sample budget =
        Except.ok ⟨false, none, none,
          some "Timed out waiting for screenshot or cancelled"⟩) := by
  refine ⟨?_, ?_, ?_⟩
  · cases hp : pollClipboard sample budget 0 with
    | some st =>
      exact ⟨⟨true, some ("data:image/png;base64," ++ st), none, none⟩,
        by simp [wait_for_clipboard_image, hp], Or.inl ⟨rfl, rfl⟩⟩
    | none =>
      exact ⟨⟨false, none, none,
          some "Timed out waiting for screenshot or cancelled"⟩,
        by simp [wait_for_clipboard_image, hp], Or.inr ⟨rfl, rfl⟩⟩
  · rintro ⟨k, hk, hg⟩
    cases hp : pollClipboard sample budget 0 with
    | some st =>
      exact ⟨⟨true, some ("data:image/png;base64," ++ st), none, none⟩,
        by simp [wait_for_clipboard_image, hp], rfl⟩
    | none =>
      exfalso
      have := bad_of_pollClipboard_none sample budget 0 hp k hk
      rw [Nat.zero_add] at this
      exact this hg
  · intro h
    have hp : pollClipboard sample budget 0 = none := by
      refine pollClipboard_none_of_bad sample budget 0 ?_
      intro k hk
      rw [Nat.zero_add]
      exact h k hk
    simp [wait_for_clipboard_image, hp]

/-- A concrete probe sequence for the C7 witness: the image appears at
the third probe. -/
def sampleFixture : Nat → Option String := fun n =>
  if n = 0 then some ""
  else if n = 1 then none
  else if n = 2 then some "IMG64"
  else some ""

/-- Witness for C7: with the fixture probes the watcher succeeds inside
the budget, and with probes that never see an image it returns the
timeout result as a normal value. -/
theorem wait_for_clipboard_image_is_total_witness :
    (∃ r, wait_for_clipboard_image sampleFixture 5 = Except.ok r ∧
      r.success = true) ∧
    wait_for_clipboard_image (fun _ => some "") 3 =
      Except.ok ⟨false, none, none,
        some "Timed out waiting for screenshot or cancelled"⟩ :=
  ⟨(wait_for_clipboard_image_is_total sampleFixture 5).2.1
      ⟨2, by omega, "IMG64", rfl, rfl⟩,
    (wait_for_clipboard_image_is_total (fun _ => some "") 3).2.2
      (fun k _ => by rintro ⟨st, hst, hne⟩; cases hst; exact Bool.noConfusion hne)⟩

end AskOcr
